import Mathlib

/-!
# Verification of the Mister Donkey proactive weather-monitoring agent

A shallow embedding of `weather_agent.py` (class `WeatherAgent`), together
with the parts of `geo_utils_helper.py` and `dopplertower_engine.py` that the
agent calls.  Python `datetime` instants are modelled as rational numbers of
seconds since an arbitrary epoch (so `timedelta.total_seconds()` is plain
subtraction); Python floats are modelled as rationals; Python dicts keyed by
`user_id` are modelled as association lists with dictionary semantics
(a key occurs at most once; insertion replaces, deletion removes the key);
network calls and other external effects are modelled as explicit outcome
parameters.  Python f-string messages are modelled by an inductive type whose
constructors carry exactly the values interpolated into each message
(the textual rendering, e.g. `%.1f` formatting, is abstracted away).
-/

namespace MisterDonkey

/-! ## Association lists with dictionary semantics -/

/-- First value bound to key `k` (Python `dict.get(k)` / `dict[k]`). -/
def assocFind {α : Type} (k : String) : List (String × α) → Option α
  | [] => none
  | (a, b) :: t => if a = k then some b else assocFind k t

/-- Bind key `k` to `v` (Python `dict[k] = v`): replace the first binding of
`k`, or append a fresh one. -/
def assocInsert {α : Type} (k : String) (v : α) : List (String × α) → List (String × α)
  | [] => [(k, v)]
  | (a, b) :: t => if a = k then (k, v) :: t else (a, b) :: assocInsert k v t

/-- Update the value bound to key `k` in place (mutation of the shared
session dict through the `sess` reference in the Python loop). -/
def assocUpdate {α : Type} (k : String) (f : α → α) : List (String × α) → List (String × α)
  | [] => []
  | (a, b) :: t => if a = k then (a, f b) :: t else (a, b) :: assocUpdate k f t

/-- Remove every binding of key `k` (Python `del dict[k]`). -/
def assocErase {α : Type} (k : String) (l : List (String × α)) : List (String × α) :=
  l.filter (fun p => p.1 ≠ k)

/-! ## Strings: substring test (Python `"Rain" not in c_cond`) -/

/-- True when `needle` is a prefix of `hay` (on character lists). -/
def charsPrefixOf : List Char → List Char → Bool
  | [], _ => true
  | _ :: _, [] => false
  | a :: as, b :: bs => a = b && charsPrefixOf as bs

/-- True when `needle` occurs somewhere in `hay` (on character lists). -/
def charsSubstrOf (needle : List Char) : List Char → Bool
  | [] => needle.isEmpty
  | c :: rest => charsPrefixOf needle (c :: rest) || charsSubstrOf needle rest

/-- Python `needle in hay` on strings. -/
def strContains (hay needle : String) : Bool :=
  charsSubstrOf needle.toList hay.toList

/-! ## Weather data model

`Weather` models the dict returned by the OpenWeather current-weather endpoint
as far as the agent reads it: `current.get("main", {}).get("temp")` and
`current.get("weather", [{}])[0].get("main", "")`.  A missing or falsy
`"main"` sub-dict is `none`; the head condition string defaults to `""`. -/

structure WMain where
  temp : Option ℚ
  deriving DecidableEq, Repr

structure Weather where
  main : Option WMain
  /-- Model of `weather[0]["main"]`, defaulted to `""` when absent. -/
  cond : String
  deriving DecidableEq, Repr

/-- One entry of `forecast["list"]`. -/
structure ForecastItem where
  /-- Model of `item["dt"]` converted by `datetime.fromtimestamp`. -/
  dt : ℚ
  /-- Model of `item.get("main", {}).get("temp")`. -/
  temp : Option ℚ
  /-- Model of `item.get("weather", [{}])[0].get("main", "")`. -/
  cond : String
  /-- Model of `item.get("rain", {}).get("1h", 0) or 0`. -/
  rain1h : ℚ
  /-- Model of `item.get("wind", {}).get("speed", 0) or 0`. -/
  windSpeed : ℚ
  deriving DecidableEq, Repr

/-- One entry of the official-alert list returned by `get_weather_alerts`. -/
structure AlertEntry where
  event : Option String
  desc : Option String
  deriving DecidableEq, Repr

/-- The values interpolated into each Python f-string alert message.  One
constructor per f-string in the source; `%H:%M` time labels are carried as
the underlying instant. -/
inductive Msg where
  | temperatureChange (diff bTemp cTemp : ℚ)
  | upcomingTempChange (direction : String) (absDelta : ℚ) (fTime cTemp fTemp : ℚ)
  | rainStarting (fTime rain : ℚ)
  | highWind (fTime speed : ℚ)
  | severeWeather (cond : String) (fTime : ℚ)
  | severeAlert (event descTruncated : String)
  deriving DecidableEq, Repr

/-- A warning dict produced by the detector.  The `"time"` key is present
only on forecast-derived warnings. -/
structure Warning where
  type : String
  message : Msg
  severity : String
  time : Option ℚ
  source : String
  deriving DecidableEq, Repr

/-- Model of `self.alert_thresholds` (set in `WeatherAgent.__init__`). -/
structure Thresholds where
  tempChange : ℚ
  precipitationStart : ℚ
  windSpeed : ℚ
  visibility : ℚ
  deriving DecidableEq, Repr

/-- The values assigned in `__init__`: 5 °C, 0.5 mm/h, 10 m/s, 1000 m. -/
def defaultThresholds : Thresholds :=
  { tempChange := 5, precipitationStart := 1/2, windSpeed := 10, visibility := 1000 }

/-! ## Sessions, preferences, persistent rows, agent state -/

/-- The `notification_prefs` dict; each key may be absent, and readers apply
`dict.get` defaults (`email` → False, `push` → True, `log_file` → True,
`severity_threshold` → "medium"). -/
structure Prefs where
  email : Option Bool
  push : Option Bool
  logFile : Option Bool
  severityThreshold : Option String
  deriving DecidableEq, Repr

/-- One in-memory session dict (`self.active_sessions[user_id]`). -/
structure Session where
  lat : ℚ
  lon : ℚ
  locationName : String
  email : Option String
  startTime : ℚ
  endTime : ℚ
  lastCheck : ℚ
  baselineWeather : Option Weather
  lastAlertTime : Option ℚ
  /-- Minutes between alerts (`"alert_cooldown"`, set to 30 at creation). -/
  alertCooldown : ℚ
  notificationPrefs : Prefs
  alertCount : Nat
  deriving DecidableEq, Repr

/-- One row of the `user_sessions` table, with the columns the agent reads
and writes (`created_at` omitted: never read back). -/
structure SessionRow where
  email : Option String
  lat : ℚ
  lon : ℚ
  locationName : String
  startTime : ℚ
  endTime : ℚ
  baselineWeather : Option Weather
  lastAlertTime : Option ℚ
  notificationPrefs : Prefs
  deriving DecidableEq, Repr

/-- One row of the append-only `alert_history` table. -/
structure HistoryRow where
  userId : String
  alertType : String
  message : Msg
  severity : String
  deriving DecidableEq, Repr

/-- The mutable state of a `WeatherAgent`: the in-memory session map plus
the two durable tables. -/
structure AgentState where
  activeSessions : List (String × Session)
  dbSessions : List (String × SessionRow)
  alertHistory : List HistoryRow
  deriving DecidableEq, Repr

def emptyState : AgentState :=
  { activeSessions := [], dbSessions := [], alertHistory := [] }

/-! ## geo_utils_helper.py -/

/-- Model of `is_valid_coordinates(lat, lon)`: `-90 <= lat <= 90 and -180 <= lon <= 180`
(the `float()` conversion-failure branch cannot arise for numeric inputs). -/
def is_valid_coordinates (lat lon : ℚ) : Bool :=
  decide (-90 ≤ lat) && decide (lat ≤ 90) && decide (-180 ≤ lon) && decide (lon ≤ 180)

/-- The outcome of the network calls inside `reverse_geolocate`: which of its
three branches produced the returned name. -/
inductive GeoOutcome where
  | openCage (formatted : String)
  | weatherApi (name region country : String)
  | fallbackToCoords
  deriving DecidableEq, Repr

/-- Python `f"{q:.2f}"`; the two-decimal rendering is abstracted. -/
def fmtCoord (q : ℚ) : String := toString q

/-- Model of `reverse_geolocate(lat, lon)`: it returns `None` for invalid coordinates
(it never raises — every network call is inside try/except, and the last
resort returns the coordinate string `"Location {lat:.2f}, {lon:.2f}"`). -/
def reverse_geolocate (lat lon : ℚ) (outcome : GeoOutcome) : Option String :=
  if is_valid_coordinates lat lon then
    some (match outcome with
      | GeoOutcome.openCage formatted => formatted
      | GeoOutcome.weatherApi n r c => n ++ ", " ++ r ++ ", " ++ c
      | GeoOutcome.fallbackToCoords => "Location " ++ fmtCoord lat ++ ", " ++ fmtCoord lon)
  else none

/-! ## SessionRegistry: register / save / load -/

/-- The dict returned by `register_user_session`. -/
inductive RegResult where
  | registered (location : String) (monitoringUntil : ℚ) (prefs : Prefs)
  | error (message : String)
  deriving DecidableEq, Repr

/-- The default `notification_prefs` built when the caller passes `None`:
`{"email": bool(email), "push": True, "log_file": True,
"severity_threshold": "medium"}`. -/
def defaultRegPrefs (email : Option String) : Prefs :=
  { email := some email.isSome, push := some true, logFile := some true,
    severityThreshold := some "medium" }

/-- The row written by `_save_session_to_db`.  The `INSERT OR REPLACE` lists
only nine columns — `last_alert_time` is NOT among them, so the stored row
always has NULL there, whatever the in-memory session holds. -/
def sessionRowOf (sess : Session) : SessionRow :=
  { email := sess.email, lat := sess.lat, lon := sess.lon,
    locationName := sess.locationName, startTime := sess.startTime,
    endTime := sess.endTime, baselineWeather := sess.baselineWeather,
    lastAlertTime := none,
    notificationPrefs := sess.notificationPrefs }

/-- Model of `_save_session_to_db(user_id, session_data)`. -/
def _save_session_to_db (uid : String) (sess : Session)
    (db : List (String × SessionRow)) : List (String × SessionRow) :=
  assocInsert uid (sessionRowOf sess) db

/-- Model of `register_user_session`.  `now` is `datetime.now()`; `geo` is the outcome
of the geocoding calls; `fetch` is the outcome of `get_openweather_current`
(`Except.error` models the call raising, which the surrounding try/except
turns into the `{"status": "error"}` return with the state untouched). -/
def register_user_session (now : ℚ) (geo : GeoOutcome) (fetch : Except String Weather)
    (uid : String) (lat lon : ℚ) (durationHours : ℚ) (email : Option String)
    (notificationPrefs : Option Prefs) (st : AgentState) : RegResult × AgentState :=
  let locationName := (reverse_geolocate lat lon geo).getD (fmtCoord lat ++ ", " ++ fmtCoord lon)
  match fetch with
  | Except.error e => (RegResult.error e, st)
  | Except.ok currentWeather =>
    let prefs := notificationPrefs.getD (defaultRegPrefs email)
    let sess : Session :=
      { lat := lat, lon := lon, locationName := locationName, email := email,
        startTime := now, endTime := now + durationHours * 3600, lastCheck := now,
        baselineWeather := some currentWeather, lastAlertTime := none,
        alertCooldown := 30, notificationPrefs := prefs, alertCount := 0 }
    let st1 : AgentState := { st with activeSessions := assocInsert uid sess st.activeSessions }
    let st2 : AgentState := { st1 with dbSessions := _save_session_to_db uid sess st1.dbSessions }
    (RegResult.registered locationName sess.endTime prefs, st2)

/-- The session dict rebuilt by `_load_sessions_from_db` for one row:
`alert_cooldown` is reset to 30, `alert_count` is hard-coded to 0,
`last_check` is set to now, and `last_alert_time` comes from the row. -/
def sessionOfRow (now : ℚ) (row : SessionRow) : Session :=
  { lat := row.lat, lon := row.lon, locationName := row.locationName,
    email := row.email, startTime := row.startTime, endTime := row.endTime,
    baselineWeather := row.baselineWeather, lastAlertTime := row.lastAlertTime,
    alertCooldown := 30, notificationPrefs := row.notificationPrefs,
    alertCount := 0, lastCheck := now }

/-- Model of `_load_sessions_from_db`: every stored row with `end_time > now` is
reconstituted into `active_sessions` (ISO-8601 string comparison agrees with
chronological order, modelled directly on instants). -/
def _load_sessions_from_db (now : ℚ) (st : AgentState) : AgentState :=
  let restored := st.dbSessions.foldl
    (fun acc p => if now < p.2.endTime then assocInsert p.1 (sessionOfRow now p.2) acc else acc)
    st.activeSessions
  { st with activeSessions := restored }

/-! ## WeatherChangeDetector -/

/-- The `severe_alert` warning built for one official-alert entry:
`alert.get("event", "Weather Alert")` and the first 100 characters of `alert.get("desc", "")`. -/
def mkSevereAlert (a : AlertEntry) : Warning :=
  { type := "severe_alert",
    message := Msg.severeAlert (a.event.getD "Weather Alert") ((a.desc.getD "").take 100),
    severity := "high", time := none, source := "official_alert" }

/-- The warnings `_check_upcoming_changes` appends for one forecast item
(the body of its `for` loop); items not strictly in the future are skipped. -/
def upcomingItemWarnings (th : Thresholds) (now : ℚ) (cTemp : Option ℚ) (cCond : String)
    (item : ForecastItem) : List Warning :=
  if item.dt ≤ now then []
  else
    let tempW : List Warning :=
      match cTemp, item.temp with
      | some c, some f =>
        let delta := f - c
        if |delta| ≥ th.tempChange then
          let direction := if delta < 0 then "drop" else "rise"
          [{ type := "upcoming_temp_change",
             message := Msg.upcomingTempChange direction |delta| item.dt c f,
             severity := "medium", time := some item.dt, source := "threshold" }]
        else []
      | _, _ => []
    let rainW : List Warning :=
      if item.rain1h > th.precipitationStart ∧ strContains cCond "Rain" = false then
        [{ type := "rain_starting", message := Msg.rainStarting item.dt item.rain1h,
           severity := "medium", time := some item.dt, source := "threshold" }]
      else []
    let windW : List Warning :=
      if item.windSpeed > th.windSpeed then
        [{ type := "high_wind", message := Msg.highWind item.dt item.windSpeed,
           severity := "medium", time := some item.dt, source := "threshold" }]
      else []
    let sevW : List Warning :=
      if cCond ≠ item.cond ∧ (item.cond = "Thunderstorm" ∨ item.cond = "Snow") then
        [{ type := "severe_weather", message := Msg.severeWeather item.cond item.dt,
           severity := "high", time := some item.dt, source := "threshold" }]
      else []
    tempW ++ rainW ++ windW ++ sevW

/-- Model of `_check_upcoming_changes(current, forecast)`: scan the first three
forecast entries in list order. -/
def _check_upcoming_changes (th : Thresholds) (now : ℚ) (current : Weather)
    (forecastList : List ForecastItem) : List Warning :=
  let cTemp := current.main.bind WMain.temp
  let cCond := current.cond
  ((forecastList.take 3).map (upcomingItemWarnings th now cTemp cCond)).flatten

/-- The baseline-vs-current block at the top of `_check_threshold_alerts`:
one `temperature_change` warning when both temperatures exist and the
absolute delta reaches the threshold. -/
def baselineDeltaWarnings (th : Thresholds) (sess : Session) (current : Weather) : List Warning :=
  match sess.baselineWeather with
  | none => []
  | some baseline =>
    match baseline.main, current.main with
    | some bm, some cm =>
      match bm.temp, cm.temp with
      | some bTemp, some cTemp =>
        let diff := |cTemp - bTemp|
        if diff ≥ th.tempChange then
          [{ type := "temperature_change",
             message := Msg.temperatureChange diff bTemp cTemp,
             severity := "medium", time := none, source := "threshold" }]
        else []
      | _, _ => []
    | _, _ => []

/-- Model of `_check_threshold_alerts(session_data, current, forecast)`. -/
def _check_threshold_alerts (th : Thresholds) (now : ℚ) (sess : Session) (current : Weather)
    (forecastList : List ForecastItem) : List Warning :=
  baselineDeltaWarnings th sess current ++
    (if forecastList = [] then [] else _check_upcoming_changes th now current forecastList)

/-- Model of `check_weather_changes` over already-fetched data (its own fetches and
the surrounding try/except are modelled by the caller).  The GPT branch is
dead: `__init__` sets `gpt_analysis_enabled = False`. -/
def check_weather_changes (th : Thresholds) (now : ℚ) (sess : Session) (current : Weather)
    (forecastList : List ForecastItem) (alerts : List AlertEntry) : List Warning :=
  let warnings := _check_threshold_alerts th now sess current forecastList
  if alerts = [] then warnings else warnings ++ alerts.map mkSevereAlert

/-! ## AlertGate -/

/-- Model of `_should_send_alert(user_id, warning_type)`: note the `warning_type`
argument is never used by the body. -/
def _should_send_alert (now : ℚ) (st : AgentState) (uid : String)
    (warningType : String) : Bool :=
  match assocFind uid st.activeSessions with
  | none => false
  | some session =>
    match session.lastAlertTime with
    | none => true
    | some last => decide (session.alertCooldown ≤ (now - last) / 60)

/-- The `levels` dict lookup with default 2:
`{"low": 1, "medium": 2, "high": 3}.get(s, 2)`. -/
def levels (s : String) : Nat :=
  if s = "low" then 1 else if s = "medium" then 2 else if s = "high" then 3 else 2

/-- Model of `_filter_warnings(user_id, warnings)`. -/
def _filter_warnings (now : ℚ) (st : AgentState) (uid : String)
    (warnings : List Warning) : List Warning :=
  match assocFind uid st.activeSessions with
  | none => []
  | some session =>
    let minLvl := levels (session.notificationPrefs.severityThreshold.getD "medium")
    warnings.filter (fun w => decide (minLvl ≤ levels w.severity) && _should_send_alert now st uid w.type)

/-! ## NotificationDispatcher -/

/-- Whether each external side effect of `_send_alerts` raises when
attempted. -/
structure ChannelEnv where
  logFileFails : Bool
  emailFails : Bool
  pushFails : Bool
  deriving DecidableEq, Repr

def noFailures : ChannelEnv :=
  { logFileFails := false, emailFails := false, pushFails := false }

/-- Which channels `_send_alerts` reached and with what result. -/
structure DispatchTrace where
  loggedToFile : Bool
  emailAttempted : Bool
  emailDelivered : Bool
  pushAttempted : Bool
  pushDelivered : Bool
  deriving DecidableEq, Repr

/-- The rows `_save_alerts_to_history` appends: one per warning. -/
def historyRowsOf (uid : String) (warnings : List Warning) : List HistoryRow :=
  warnings.map (fun w =>
    { userId := uid, alertType := w.type, message := w.message, severity := w.severity })

/-- Model of `_send_alerts(user_id, session_data, warnings)`.  The log-file step runs
first and is NOT inside a try/except in the source, so when it raises the
exception escapes `_send_alerts` and none of email, push, or the history
insert run.  Email and push failures are each caught in their own
try/except. -/
def _send_alerts (env : ChannelEnv) (uid : String) (sess : Session)
    (warnings : List Warning) (history : List HistoryRow) :
    Except String (DispatchTrace × List HistoryRow) :=
  let prefs := sess.notificationPrefs
  if prefs.logFile.getD true && env.logFileFails then
    Except.error "log file append failed"
  else
    let trace : DispatchTrace :=
      { loggedToFile := prefs.logFile.getD true,
        emailAttempted := prefs.email.getD false && sess.email.isSome,
        emailDelivered := (prefs.email.getD false && sess.email.isSome) && !env.emailFails,
        pushAttempted := prefs.push.getD true,
        pushDelivered := prefs.push.getD true && !env.pushFails }
    Except.ok (trace, history ++ historyRowsOf uid warnings)

/-! ## MonitorScheduler: one cycle of monitor_all_users -/

/-- The update `sess["last_check"] = now` for one user. -/
def touchLastCheck (now : ℚ) (uid : String) (st : AgentState) : AgentState :=
  { st with activeSessions :=
      assocUpdate uid (fun s => { s with lastCheck := now }) st.activeSessions }

/-- Model of `_cleanup_expired_session(user_id)`: drop from memory, and mark the
stored row expired by rewriting its `end_time` to now when still future. -/
def _cleanup_expired_session (now : ℚ) (uid : String) (st : AgentState) : AgentState :=
  { st with
    activeSessions := assocErase uid st.activeSessions,
    dbSessions := st.dbSessions.map (fun p =>
      if p.1 = uid ∧ now < p.2.endTime then (p.1, { p.2 with endTime := now }) else p) }

/-- The `for user_id, sess in list(self.active_sessions.items())` loop of one
`monitor_all_users` iteration.  `check` gives the value of
`check_weather_changes(user_id, sess)` for this cycle (that call catches its
own exceptions and returns `[]` on fetch failure, so every outcome is a
list).  An exception escaping `_send_alerts` aborts the whole cycle — the
remaining users are not polled and the expired-session cleanup never runs
(`Except.error` carries the state mutated so far). -/
def runUsers (now : ℚ) (check : String → Session → List Warning) (env : ChannelEnv) :
    List (String × Session) → AgentState → List String →
    Except AgentState (AgentState × List String)
  | [], st, toRemove => Except.ok (st, toRemove)
  | (uid, sess) :: rest, st, toRemove =>
    if now > sess.endTime then
      runUsers now check env rest st (toRemove ++ [uid])
    else
      let warnings := check uid sess
      if warnings = [] then
        runUsers now check env rest (touchLastCheck now uid st) toRemove
      else
        let filt := _filter_warnings now st uid warnings
        if filt = [] then
          runUsers now check env rest (touchLastCheck now uid st) toRemove
        else
          match _send_alerts env uid sess filt st.alertHistory with
          | Except.error _ => Except.error st
          | Except.ok (_, hist) =>
            let st1 : AgentState := { st with alertHistory := hist }
            let bump : Session → Session := fun s =>
              { s with lastAlertTime := some now,
                       alertCount := s.alertCount + filt.length,
                       lastCheck := now }
            let st2 : AgentState :=
              { st1 with activeSessions := assocUpdate uid bump st1.activeSessions }
            runUsers now check env rest st2 toRemove

/-- One full iteration of the `while self.running` body of
`monitor_all_users`: poll every user, then remove the sessions collected in
`to_remove`.  When a dispatch exception escapes, the `except` block of the iteration
block catches it after the cleanup loop was skipped. -/
def monitor_cycle (now : ℚ) (check : String → Session → List Warning)
    (env : ChannelEnv) (st : AgentState) : AgentState :=
  match runUsers now check env st.activeSessions st [] with
  | Except.error stAborted => stAborted
  | Except.ok (st1, toRemove) =>
    toRemove.foldl (fun s uid => _cleanup_expired_session now uid s) st1

/-! ## Status endpoint -/

/-- The dict returned by `get_user_status`. -/
inductive UserStatus where
  | notMonitored
  | active (location : String) (monitoringUntil lastCheck : ℚ)
      (alertCount : Nat) (prefs : Prefs)
  deriving DecidableEq, Repr

/-- Model of `get_user_status(user_id)`: membership in `active_sessions` is the only
thing consulted — `end_time` is reported, never compared with now. -/
def get_user_status (st : AgentState) (uid : String) : UserStatus :=
  match assocFind uid st.activeSessions with
  | none => UserStatus.notMonitored
  | some sess =>
    UserStatus.active sess.locationName sess.endTime sess.lastCheck
      sess.alertCount sess.notificationPrefs

/-! ## Concrete data used by witnesses and counterexamples -/

/-- A current-weather snapshot with temperature 10 °C. -/
def wTemp10 : Weather := { main := some { temp := some 10 }, cond := "Clear" }

/-- A current-weather snapshot with temperature 16 °C. -/
def wTemp16 : Weather := { main := some { temp := some 16 }, cond := "Clear" }

/-- A demo session at fixed coordinates; baseline temperature 10 °C. -/
def mkDemoSession (endT : ℚ) (lastAlert : Option ℚ) (sevThr : String)
    (em : Option String) : Session :=
  { lat := 40, lon := -74, locationName := "New York", email := em,
    startTime := 0, endTime := endT, lastCheck := 0,
    baselineWeather := some wTemp10, lastAlertTime := lastAlert,
    alertCooldown := 30,
    notificationPrefs :=
      { email := some em.isSome, push := some true, logFile := some true,
        severityThreshold := some sevThr },
    alertCount := 0 }

/-- A medium-severity threshold warning. -/
def demoWarning : Warning :=
  { type := "high_wind", message := Msg.highWind 0 12,
    severity := "medium", time := some 0, source := "threshold" }

/-! ## Association-list lemmas -/

theorem assocFind_insert_self {α : Type} (k : String) (v : α) (l : List (String × α)) :
    assocFind k (assocInsert k v l) = some v := by
  induction l with
  | nil => simp [assocInsert, assocFind]
  | cons p t ih =>
    obtain ⟨a, b⟩ := p
    by_cases h : a = k
    · simp [assocInsert, assocFind, h]
    · simp [assocInsert, assocFind, h, ih]

theorem assocFind_some_mem {α : Type} {k : String} {v : α} :
    ∀ {l : List (String × α)}, assocFind k l = some v → (k, v) ∈ l := by
  intro l
  induction l with
  | nil => intro h; simp [assocFind] at h
  | cons p t ih =>
    obtain ⟨a, b⟩ := p
    intro h
    by_cases hak : a = k
    · simp [assocFind, hak] at h
      subst hak; subst h
      exact List.mem_cons_self _ _
    · simp [assocFind, hak] at h
      exact List.mem_cons_of_mem _ (ih h)

theorem assocFind_filter_none {α : Type} (k : String) (q : String × α → Bool)
    {l : List (String × α)} (h : assocFind k l = none) :
    assocFind k (l.filter q) = none := by
  induction l with
  | nil => simp [assocFind]
  | cons p t ih =>
    obtain ⟨a, b⟩ := p
    by_cases hak : a = k
    · simp [assocFind, hak] at h
    · simp [assocFind, hak] at h
      by_cases hq : q (a, b)
      · simp [List.filter, hq, assocFind, hak]
        exact ih h
      · simp [List.filter, hq]
        exact ih h

theorem assocFind_erase_self {α : Type} (k : String) (l : List (String × α)) :
    assocFind k (assocErase k l) = none := by
  induction l with
  | nil => simp [assocErase, assocFind]
  | cons p t ih =>
    obtain ⟨a, b⟩ := p
    by_cases hak : a = k
    · simpa [assocErase, List.filter, hak] using ih
    · simpa [assocErase, List.filter, hak, assocFind] using ih

/-! ## Claim theorems -/

/-- C6: when the baseline weather fetch raises during registration,
`register_user_session` fails atomically: it returns the error result and
the agent state — the in-memory active set and the durable session table —
is completely unchanged. -/
theorem register_fetch_error_atomic (now : ℚ) (geo : GeoOutcome) (e : String)
    (uid : String) (lat lon durationHours : ℚ) (email : Option String)
    (prefs : Option Prefs) (st : AgentState) :
    register_user_session now geo (Except.error e) uid lat lon durationHours email prefs st
      = (RegResult.error e, st) := rfl

/-- C10: `get_user_status` never consults `end_time`: any user present in
the in-memory active set is reported `active` with the location of the session,
expiry, last check and alert count, even when the session is already
expired (`end_time < now`). -/
theorem status_ignores_end_time (st : AgentState) (uid : String) (sess : Session) (now : ℚ)
    (hfind : assocFind uid st.activeSessions = some sess) (hexp : sess.endTime < now) :
    get_user_status st uid
      = UserStatus.active sess.locationName sess.endTime sess.lastCheck
          sess.alertCount sess.notificationPrefs := by
  unfold get_user_status
  rw [hfind]

/-- Witness for C10: a session whose `end_time` (100) is long past
(now = 10000) is still reported `active`. -/
theorem status_ignores_end_time_witness :
    assocFind "u1" (AgentState.mk [("u1", mkDemoSession 100 none "medium" none)] [] []).activeSessions
      = some (mkDemoSession 100 none "medium" none) ∧
    (mkDemoSession 100 none "medium" none).endTime < 10000 ∧
    get_user_status (AgentState.mk [("u1", mkDemoSession 100 none "medium" none)] [] []) "u1"
      = UserStatus.active (mkDemoSession 100 none "medium" none).locationName
          (mkDemoSession 100 none "medium" none).endTime
          (mkDemoSession 100 none "medium" none).lastCheck
          (mkDemoSession 100 none "medium" none).alertCount
          (mkDemoSession 100 none "medium" none).notificationPrefs :=
  ⟨by simp [assocFind], by norm_num [mkDemoSession],
    status_ignores_end_time _ "u1" _ 10000 (by simp [assocFind]) (by norm_num [mkDemoSession])⟩

/-- C5 (code bug): a failure of the per-user log-file append escapes
`_send_alerts` — the email and push channels are never attempted and no
alert-history row is recorded — because that call alone is not wrapped in
try/except; with the log channel healthy, the same input reaches every
channel and appends history. -/
theorem log_failure_blocks_other_channels :
    _send_alerts { logFileFails := true, emailFails := false, pushFails := false }
        "u1" (mkDemoSession 1000 none "medium" (some "user@example.com")) [demoWarning] []
      = Except.error "log file append failed" ∧
    _send_alerts noFailures
        "u1" (mkDemoSession 1000 none "medium" (some "user@example.com")) [demoWarning] []
      = Except.ok
          ({ loggedToFile := true, emailAttempted := true, emailDelivered := true,
             pushAttempted := true, pushDelivered := true },
           historyRowsOf "u1" [demoWarning]) :=
  ⟨rfl, rfl⟩

/-- C9: the persistence round-trip loses the cooldown state and the alert
counter.  `_save_session_to_db` never writes `last_alert_time` (the INSERT
OR REPLACE omits that column, leaving NULL), `_load_sessions_from_db`
hard-codes `alert_count` to 0, and hence any session saved and reloaded
across a restart comes back with `last_alert_time = None` and
`alert_count = 0` — the cooldown window does not survive a restart. -/
theorem persistence_roundtrip_loses_cooldown :
    (∀ sess : Session, (sessionRowOf sess).lastAlertTime = none) ∧
    (∀ (now : ℚ) (row : SessionRow), (sessionOfRow now row).alertCount = 0) ∧
    (∀ (now : ℚ) (uid : String) (sess : Session) (hist : List HistoryRow),
      now < sess.endTime →
      assocFind uid (_load_sessions_from_db now
          (AgentState.mk [] (_save_session_to_db uid sess []) hist)).activeSessions
        = some (sessionOfRow now (sessionRowOf sess)) ∧
      (sessionOfRow now (sessionRowOf sess)).lastAlertTime = none ∧
      (sessionOfRow now (sessionRowOf sess)).alertCount = 0) := by
  refine ⟨fun _ => rfl, fun _ _ => rfl, fun now uid sess hist h => ⟨?_, rfl, rfl⟩⟩
  have hrow : (sessionRowOf sess).endTime = sess.endTime := rfl
  simp [_load_sessions_from_db, _save_session_to_db, assocInsert, hrow, h, assocFind]

/-- Witness for C9: a session that has already alerted (`last_alert_time`
set, `alert_count = 3`) is restored after a restart with both reset. -/
theorem persistence_roundtrip_loses_cooldown_witness :
    (0 : ℚ) < ({ mkDemoSession 100 (some 50) "medium" none with alertCount := 3 } : Session).endTime ∧
    assocFind "u1" (_load_sessions_from_db 0
        (AgentState.mk []
          (_save_session_to_db "u1"
            { mkDemoSession 100 (some 50) "medium" none with alertCount := 3 } []) [])).activeSessions
      = some (sessionOfRow 0 (sessionRowOf
          { mkDemoSession 100 (some 50) "medium" none with alertCount := 3 })) ∧
    (sessionOfRow 0 (sessionRowOf
        { mkDemoSession 100 (some 50) "medium" none with alertCount := 3 })).lastAlertTime = none ∧
    (sessionOfRow 0 (sessionRowOf
        { mkDemoSession 100 (some 50) "medium" none with alertCount := 3 })).alertCount = 0 := by
  have h : (0 : ℚ) < ({ mkDemoSession 100 (some 50) "medium" none with alertCount := 3 } : Session).endTime := by
    norm_num [mkDemoSession]
  obtain ⟨h1, h2, h3⟩ := persistence_roundtrip_loses_cooldown.2.2 0 "u1"
    { mkDemoSession 100 (some 50) "medium" none with alertCount := 3 } [] h
  exact ⟨h, h1, h2, h3⟩

/-! Lemmas about the scheduler cycle on a single-session state. -/

/-- Applying `_filter_warnings` to an empty candidate list yields the empty list. -/
theorem filter_warnings_nil (now : ℚ) (st : AgentState) (uid : String) :
    _filter_warnings now st uid [] = [] := by
  unfold _filter_warnings
  cases assocFind uid st.activeSessions <;> simp

/-- With no failing channel, `_send_alerts` returns normally and appends one
history row per warning. -/
theorem send_alerts_noFailures (uid : String) (sess : Session) (ws : List Warning)
    (hist : List HistoryRow) :
    ∃ tr, _send_alerts noFailures uid sess ws hist
      = Except.ok (tr, hist ++ historyRowsOf uid ws) := by
  unfold _send_alerts noFailures
  simp

/-- One scheduler cycle over a single live session that dispatches nothing:
only `last_check` is refreshed. -/
theorem monitor_cycle_singleton_suppressed (now : ℚ)
    (check : String → Session → List Warning) (env : ChannelEnv) (u : String) (s : Session)
    (db : List (String × SessionRow)) (hist : List HistoryRow)
    (hlive : ¬ now > s.endTime)
    (hfilt : _filter_warnings now (AgentState.mk [(u, s)] db hist) u (check u s) = []) :
    monitor_cycle now check env (AgentState.mk [(u, s)] db hist)
      = AgentState.mk [(u, { s with lastCheck := now })] db hist := by
  unfold monitor_cycle
  by_cases hw : check u s = []
  · simp [runUsers, if_neg hlive, hw, touchLastCheck, assocUpdate]
  · simp [runUsers, if_neg hlive, hw, hfilt, touchLastCheck, assocUpdate]

/-- One scheduler cycle over a single live session whose filtered warning
set is non-empty: the alerts are dispatched, history rows are appended, and
the cooldown timestamp, alert count and last check of the session are updated. -/
theorem monitor_cycle_singleton_dispatch (now : ℚ)
    (check : String → Session → List Warning) (u : String) (s : Session)
    (db : List (String × SessionRow)) (hist : List HistoryRow)
    (hlive : ¬ now > s.endTime)
    (hfilt : _filter_warnings now (AgentState.mk [(u, s)] db hist) u (check u s) ≠ []) :
    monitor_cycle now check noFailures (AgentState.mk [(u, s)] db hist)
      = AgentState.mk
          [(u, { s with lastAlertTime := some now,
                        alertCount := s.alertCount +
                          (_filter_warnings now (AgentState.mk [(u, s)] db hist) u
                            (check u s)).length,
                        lastCheck := now })]
          db
          (hist ++ historyRowsOf u
            (_filter_warnings now (AgentState.mk [(u, s)] db hist) u (check u s))) := by
  have hw : check u s ≠ [] := by
    intro h
    rw [h, filter_warnings_nil] at hfilt
    exact hfilt rfl
  unfold monitor_cycle
  simp [runUsers, if_neg hlive, hw, hfilt, _send_alerts, noFailures, assocUpdate]

/-! Concrete scenario state for the cooldown claim. -/

/-- The cooldown-scenario session before any alert: long-lived, baseline
10 °C, no alert dispatched yet. -/
def sessA : Session := mkDemoSession 1000000 none "medium" none

/-- The scenario session after the first dispatch at t = 0. -/
def sessB : Session := { sessA with lastAlertTime := some 0, alertCount := 1, lastCheck := 0 }

/-- The scenario session after the suppressed poll at t = 600. -/
def sessC : Session := { sessB with lastCheck := 600 }

/-- A session map with the one long-lived session. -/
def stCooldown : AgentState := AgentState.mk [("u1", sessA)] [] []

/-- Every poll observes current temperature 16 °C against baseline 10 °C:
each check yields one threshold-breaching `temperature_change` warning. -/
def breachCheck : String → Session → List Warning :=
  fun _ sess => check_weather_changes defaultThresholds 0 sess wTemp16 [] []

/-- The single warning produced by every breaching poll in the scenario. -/
def wBreach : Warning :=
  { type := "temperature_change", message := Msg.temperatureChange 6 10 16,
    severity := "medium", time := none, source := "threshold" }

theorem breachCheck_eval (u : String) (s : Session)
    (hb : s.baselineWeather = some wTemp10) : breachCheck u s = [wBreach] := by
  have habs : |(16 : ℚ) - 10| = 6 := by
    rw [show (16 : ℚ) - 10 = 6 by norm_num]
    exact abs_of_nonneg (by norm_num)
  have hge : ((5 : ℚ) ≤ 6) = True := by norm_num
  unfold breachCheck check_weather_changes _check_threshold_alerts baselineDeltaWarnings
  simp [hb, wTemp10, wTemp16, habs, defaultThresholds, hge, wBreach]

theorem filter_cooldown_first (db : List (String × SessionRow)) (hist : List HistoryRow) :
    _filter_warnings 0 (AgentState.mk [("u1", sessA)] db hist) "u1" [wBreach]
      = [wBreach] := by
  simp [_filter_warnings, assocFind, _should_send_alert, sessA, mkDemoSession, levels, wBreach]

theorem filter_cooldown_second (db : List (String × SessionRow)) (hist : List HistoryRow) :
    _filter_warnings 600 (AgentState.mk [("u1", sessB)] db hist) "u1" [wBreach] = [] := by
  simp [_filter_warnings, assocFind, _should_send_alert, sessB, sessA, mkDemoSession,
    levels, wBreach]
  norm_num

theorem filter_cooldown_third (db : List (String × SessionRow)) (hist : List HistoryRow) :
    _filter_warnings 2100 (AgentState.mk [("u1", sessC)] db hist) "u1" [wBreach]
      = [wBreach] := by
  simp [_filter_warnings, assocFind, _should_send_alert, sessC, sessB, sessA, mkDemoSession,
    levels, wBreach]
  norm_num

/-- First scenario cycle (t = 0): dispatch, cooldown stamp set. -/
theorem cooldown_cycle_one :
    monitor_cycle 0 breachCheck noFailures stCooldown
      = AgentState.mk [("u1", sessB)] [] (historyRowsOf "u1" [wBreach]) := by
  have hb : breachCheck "u1" sessA = [wBreach] := breachCheck_eval _ _ rfl
  have hlive : ¬ (0 : ℚ) > sessA.endTime := by
    show ¬ (0 : ℚ) > 1000000
    norm_num
  have hfilt : _filter_warnings 0 (AgentState.mk [("u1", sessA)] [] []) "u1"
      (breachCheck "u1" sessA) ≠ [] := by
    rw [hb, filter_cooldown_first]
    simp
  have h := monitor_cycle_singleton_dispatch 0 breachCheck "u1" sessA [] [] hlive hfilt
  rw [show stCooldown = AgentState.mk [("u1", sessA)] [] [] from rfl, h, hb,
    filter_cooldown_first]
  simp [sessB, sessA, mkDemoSession]

/-- Second scenario cycle (t = 600 s, ten minutes later): suppressed. -/
theorem cooldown_cycle_two :
    monitor_cycle 600 breachCheck noFailures
        (AgentState.mk [("u1", sessB)] [] (historyRowsOf "u1" [wBreach]))
      = AgentState.mk [("u1", sessC)] [] (historyRowsOf "u1" [wBreach]) := by
  have hb : breachCheck "u1" sessB = [wBreach] := breachCheck_eval _ _ rfl
  have hlive : ¬ (600 : ℚ) > sessB.endTime := by
    show ¬ (600 : ℚ) > 1000000
    norm_num
  have hfilt : _filter_warnings 600
      (AgentState.mk [("u1", sessB)] [] (historyRowsOf "u1" [wBreach])) "u1"
      (breachCheck "u1" sessB) = [] := by
    rw [hb, filter_cooldown_second]
  exact monitor_cycle_singleton_suppressed 600 breachCheck noFailures "u1" sessB [] _
    hlive hfilt

/-- Third scenario cycle (t = 2100 s, 35 minutes after the dispatch):
allowed through again. -/
theorem cooldown_cycle_three :
    monitor_cycle 2100 breachCheck noFailures
        (AgentState.mk [("u1", sessC)] [] (historyRowsOf "u1" [wBreach]))
      = AgentState.mk
          [("u1", { sessC with lastAlertTime := some 2100, alertCount := 2,
                               lastCheck := 2100 })]
          []
          (historyRowsOf "u1" [wBreach] ++ historyRowsOf "u1" [wBreach]) := by
  have hb : breachCheck "u1" sessC = [wBreach] := breachCheck_eval _ _ rfl
  have hlive : ¬ (2100 : ℚ) > sessC.endTime := by
    show ¬ (2100 : ℚ) > 1000000
    norm_num
  have hfilt : _filter_warnings 2100
      (AgentState.mk [("u1", sessC)] [] (historyRowsOf "u1" [wBreach])) "u1"
      (breachCheck "u1" sessC) ≠ [] := by
    rw [hb, filter_cooldown_third]
    simp
  have h := monitor_cycle_singleton_dispatch 2100 breachCheck "u1" sessC []
    (historyRowsOf "u1" [wBreach]) hlive hfilt
  rw [h, hb, filter_cooldown_third]
  simp [sessC, sessB, sessA, mkDemoSession]

/-- C3: the cooldown is one per-session timestamp applied uniformly to every
warning type: `_should_send_alert` ignores its `warning_type` argument, and
it refuses exactly when `last_alert_time` is set with
`(now − last_alert_time)/60 < alert_cooldown`.  Consequently, polling a
threshold-breaching session at t = 0 s dispatches (alert_count 1,
last_alert_time 0), polling again 10 minutes later (t = 600 s) is suppressed
under the 30-minute cooldown (alert_count still 1), and a third poll
35 minutes after the first dispatch (t = 2100 s) is allowed through
(alert_count 2). -/
theorem cooldown_single_timestamp_uniform :
    (∀ (now : ℚ) (st : AgentState) (uid wt wt' : String),
        _should_send_alert now st uid wt = _should_send_alert now st uid wt') ∧
    (∀ (now : ℚ) (st : AgentState) (uid wt : String) (sess : Session),
        assocFind uid st.activeSessions = some sess →
        (_should_send_alert now st uid wt = false ↔
          ∃ last, sess.lastAlertTime = some last ∧
            (now - last) / 60 < sess.alertCooldown)) ∧
    ((assocFind "u1" (monitor_cycle 0 breachCheck noFailures stCooldown).activeSessions).map
        Session.alertCount = some 1 ∧
     (assocFind "u1" (monitor_cycle 0 breachCheck noFailures stCooldown).activeSessions).map
        Session.lastAlertTime = some (some 0) ∧
     (assocFind "u1" (monitor_cycle 600 breachCheck noFailures
          (monitor_cycle 0 breachCheck noFailures stCooldown)).activeSessions).map
        Session.alertCount = some 1 ∧
     (assocFind "u1" (monitor_cycle 2100 breachCheck noFailures
          (monitor_cycle 600 breachCheck noFailures
            (monitor_cycle 0 breachCheck noFailures stCooldown))).activeSessions).map
        Session.alertCount = some 2) := by
  refine ⟨fun now st uid wt wt' => rfl, fun now st uid wt sess hfind => ?_, ?_, ?_, ?_, ?_⟩
  · unfold _should_send_alert
    rw [hfind]
    cases hl : sess.lastAlertTime with
    | none => simp [hl]
    | some last => simp [hl, not_le]
  · rw [cooldown_cycle_one]
    simp [assocFind, sessB, sessA, mkDemoSession]
  · rw [cooldown_cycle_one]
    simp [assocFind, sessB, sessA, mkDemoSession]
  · rw [cooldown_cycle_one, cooldown_cycle_two]
    simp [assocFind, sessC, sessB, sessA, mkDemoSession]
  · rw [cooldown_cycle_one, cooldown_cycle_two, cooldown_cycle_three]
    simp [assocFind, sessC, sessB, sessA, mkDemoSession]

/-- Witness for C3: the suppression criterion instantiated on the concrete
cooldown session ten minutes after a dispatch at t = 0. -/
theorem cooldown_single_timestamp_uniform_witness :
    assocFind "u1"
        (AgentState.mk [("u1", mkDemoSession 1000000 (some 0) "medium" none)] [] []).activeSessions
      = some (mkDemoSession 1000000 (some 0) "medium" none) ∧
    (_should_send_alert 600
        (AgentState.mk [("u1", mkDemoSession 1000000 (some 0) "medium" none)] [] [])
        "u1" "temperature_change" = false ↔
      ∃ last, (mkDemoSession 1000000 (some 0) "medium" none).lastAlertTime = some last ∧
        ((600 : ℚ) - last) / 60 < (mkDemoSession 1000000 (some 0) "medium" none).alertCooldown) :=
  ⟨rfl, cooldown_single_timestamp_uniform.2.1 600
    (AgentState.mk [("u1", mkDemoSession 1000000 (some 0) "medium" none)] [] [])
    "u1" "temperature_change" (mkDemoSession 1000000 (some 0) "medium" none) rfl⟩

/-! Helper lemmas for the detector claims. -/

/-- Every warning produced for a single forecast item has one of the four
forecast warning types. -/
theorem upcoming_warning_types (th : Thresholds) (now : ℚ) (cTemp : Option ℚ)
    (cCond : String) (item : ForecastItem) (w : Warning)
    (hw : w ∈ upcomingItemWarnings th now cTemp cCond item) :
    w.type = "upcoming_temp_change" ∨ w.type = "rain_starting" ∨
    w.type = "high_wind" ∨ w.type = "severe_weather" := by
  unfold upcomingItemWarnings at hw
  split at hw
  · simp at hw
  · simp only [List.mem_append] at hw
    rcases hw with (((hw | hw) | hw) | hw) <;>
      (try split at hw) <;> (try split at hw) <;> simp_all

/-- The scan `_check_upcoming_changes` never emits a `temperature_change` warning
(the baseline-delta type). -/
theorem upcoming_changes_type_ne (th : Thresholds) (now : ℚ) (current : Weather)
    (forecastList : List ForecastItem) (w : Warning)
    (hw : w ∈ _check_upcoming_changes th now current forecastList) :
    ¬ w.type = "temperature_change" := by
  unfold _check_upcoming_changes at hw
  simp only [List.mem_flatten, List.mem_map] at hw
  obtain ⟨l, ⟨item, hitem, rfl⟩, hwl⟩ := hw
  rcases upcoming_warning_types th now _ _ item w hwl with h | h | h | h <;> simp [h]

/-- C4: with a baseline snapshot and a current snapshot that both carry a
temperature, `_check_threshold_alerts` emits exactly one
`temperature_change` warning — of severity medium, whose message reports
the delta and both temperatures — when `|current − baseline| ≥
temp_change_threshold`, and none when the delta is below the threshold. -/
theorem temperature_change_detection (th : Thresholds) (now : ℚ) (sess : Session)
    (baseline current : Weather) (bm cm : WMain) (bTemp cTemp : ℚ)
    (forecastList : List ForecastItem)
    (hb : sess.baselineWeather = some baseline) (hbm : baseline.main = some bm)
    (hcm : current.main = some cm) (hbt : bm.temp = some bTemp) (hct : cm.temp = some cTemp) :
    (_check_threshold_alerts th now sess current forecastList).filter
        (fun w => w.type == "temperature_change")
      = if |cTemp - bTemp| ≥ th.tempChange then
          [{ type := "temperature_change",
             message := Msg.temperatureChange |cTemp - bTemp| bTemp cTemp,
             severity := "medium", time := none, source := "threshold" }]
        else [] := by
  unfold _check_threshold_alerts
  rw [List.filter_append]
  have hup : (if forecastList = [] then []
        else _check_upcoming_changes th now current forecastList).filter
      (fun w => w.type == "temperature_change") = [] := by
    split
    · rfl
    · rw [List.filter_eq_nil_iff]
      intro w hw
      simpa using upcoming_changes_type_ne th now current forecastList w hw
  rw [hup, List.append_nil]
  unfold baselineDeltaWarnings
  simp only [hb, hbm, hcm, hbt, hct]
  split
  · simp [List.filter]
  · rfl

/-- Witness for C4: baseline 10 °C, current 16 °C, threshold 5 °C — exactly
one `temperature_change` warning reporting delta 6 °C. -/
theorem temperature_change_detection_witness :
    (mkDemoSession 1000 none "medium" none).baselineWeather = some wTemp10 ∧
    (_check_threshold_alerts defaultThresholds 0 (mkDemoSession 1000 none "medium" none)
        wTemp16 []).filter (fun w => w.type == "temperature_change")
      = [{ type := "temperature_change", message := Msg.temperatureChange 6 10 16,
           severity := "medium", time := none, source := "threshold" }] := by
  constructor
  · rfl
  · have h := temperature_change_detection defaultThresholds 0
      (mkDemoSession 1000 none "medium" none) wTemp10 wTemp16
      { temp := some 10 } { temp := some 16 } 10 16 [] rfl rfl rfl rfl rfl
    rw [h]
    have h6 : |(16 : ℚ) - 10| = 6 := by
      rw [show (16 : ℚ) - 10 = 6 by norm_num]
      exact abs_of_nonneg (by norm_num)
    rw [h6]
    norm_num [defaultThresholds]

/-! ## Characterization of a completed scheduler cycle -/

/-- With no failing channel, `runUsers` completes and collects into
`to_remove` exactly the user ids of the snapshot entries with
`now > end_time`, in order. -/
theorem runUsers_noFailures (now : ℚ) (check : String → Session → List Warning) :
    ∀ (l : List (String × Session)) (st : AgentState) (tr : List String),
      ∃ stF, runUsers now check noFailures l st tr
        = Except.ok (stF, tr ++ (l.filter (fun p => decide (now > p.2.endTime))).map Prod.fst) := by
  intro l
  induction l with
  | nil =>
    intro st tr
    exact ⟨st, by simp [runUsers]⟩
  | cons p rest ih =>
    obtain ⟨u, s⟩ := p
    intro st tr
    by_cases hx : now > s.endTime
    · obtain ⟨stF, hF⟩ := ih st (tr ++ [u])
      refine ⟨stF, ?_⟩
      simp only [runUsers, if_pos hx, List.filter_cons]
      simpa [hx] using hF
    · by_cases hw : check u s = []
      · obtain ⟨stF, hF⟩ := ih (touchLastCheck now u st) tr
        refine ⟨stF, ?_⟩
        simp only [runUsers, if_neg hx, List.filter_cons]
        simpa [hw, hx] using hF
      · by_cases hfilt : _filter_warnings now st u (check u s) = []
        · obtain ⟨stF, hF⟩ := ih (touchLastCheck now u st) tr
          refine ⟨stF, ?_⟩
          simp only [runUsers, if_neg hx, List.filter_cons]
          simpa [hw, hfilt, hx] using hF
        · obtain ⟨trc, hsend⟩ := send_alerts_noFailures u s
            (_filter_warnings now st u (check u s)) st.alertHistory
          obtain ⟨stF, hF⟩ := ih
            { st with
                alertHistory := st.alertHistory ++
                  historyRowsOf u (_filter_warnings now st u (check u s)),
                activeSessions :=
                  assocUpdate u
                    (fun sOld =>
                      { sOld with lastAlertTime := some now,
                                  alertCount := sOld.alertCount +
                                    (_filter_warnings now st u (check u s)).length,
                                  lastCheck := now })
                    st.activeSessions } tr
          refine ⟨stF, ?_⟩
          simp only [runUsers, if_neg hx, List.filter_cons]
          simp only [hw, hfilt, if_neg, ite_false]
          rw [hsend]
          simpa [hw, hfilt, hx] using hF

/-- The cleanup `_cleanup_expired_session` never resurrects an absent user. -/
theorem cleanup_preserves_absent (now : ℚ) (uid v : String) (st : AgentState)
    (h : assocFind uid st.activeSessions = none) :
    assocFind uid (_cleanup_expired_session now v st).activeSessions = none := by
  unfold _cleanup_expired_session assocErase
  exact assocFind_filter_none uid _ h

/-- Once absent, a user stays absent through the whole cleanup pass. -/
theorem cleanup_fold_preserves_absent (now : ℚ) :
    ∀ (tr : List String) (st : AgentState) (uid : String),
      assocFind uid st.activeSessions = none →
      assocFind uid
        ((tr.foldl (fun s v => _cleanup_expired_session now v s) st).activeSessions) = none := by
  intro tr
  induction tr with
  | nil => intro st uid h; simpa using h
  | cons v rest ih =>
    intro st uid h
    exact ih _ uid (cleanup_preserves_absent now uid v st h)

/-- Every user collected in `to_remove` is absent after the cleanup pass. -/
theorem cleanup_fold_removes (now : ℚ) :
    ∀ (tr : List String) (st : AgentState) (uid : String), uid ∈ tr →
      assocFind uid
        ((tr.foldl (fun s v => _cleanup_expired_session now v s) st).activeSessions) = none := by
  intro tr
  induction tr with
  | nil => intro st uid h; simp at h
  | cons v rest ih =>
    intro st uid h
    rcases List.mem_cons.mp h with rfl | hmem
    · refine cleanup_fold_preserves_absent now rest _ uid ?_
      unfold _cleanup_expired_session
      exact assocFind_erase_self uid st.activeSessions
    · exact ih _ uid hmem

/-- A user whose session satisfies `now > end_time` is collected. -/
theorem mem_expired_ids {now : ℚ} {l : List (String × Session)} {uid : String} {sess : Session}
    (hfind : assocFind uid l = some sess) (hexp : now > sess.endTime) :
    uid ∈ (l.filter (fun p => decide (now > p.2.endTime))).map Prod.fst := by
  have hmem := assocFind_some_mem hfind
  exact List.mem_map.mpr ⟨(uid, sess), List.mem_filter.mpr ⟨hmem, by simpa using hexp⟩, rfl⟩

/-- C2 amended: a session whose `end_time` is strictly before the `now`
of the cycle is absent from the active set after one completed scheduler cycle, so
`get_user_status` reports `not_monitored`; the boundary `end_time = now`
is NOT removed, because the source tests `now > end_time` strictly. -/
theorem expired_session_removed_after_cycle (now : ℚ)
    (check : String → Session → List Warning) (st : AgentState) (uid : String) (sess : Session)
    (hfind : assocFind uid st.activeSessions = some sess)
    (hexp : sess.endTime < now) :
    get_user_status (monitor_cycle now check noFailures st) uid
      = UserStatus.notMonitored := by
  obtain ⟨stF, hF⟩ := runUsers_noFailures now check st.activeSessions st []
  unfold monitor_cycle
  rw [hF]
  have hmem : uid ∈ (st.activeSessions.filter (fun p => decide (now > p.2.endTime))).map Prod.fst :=
    mem_expired_ids hfind hexp
  have hnone := cleanup_fold_removes now
    (([] : List String) ++ (st.activeSessions.filter (fun p => decide (now > p.2.endTime))).map Prod.fst)
    stF uid (by simpa using hmem)
  unfold get_user_status
  rw [hnone]

/-- Witness for C2 (amended): an expired session (`end_time` 100, now 500)
is gone after one cycle. -/
theorem expired_session_removed_after_cycle_witness :
    assocFind "u3"
        (AgentState.mk [("u3", mkDemoSession 100 none "medium" none)] [] []).activeSessions
      = some (mkDemoSession 100 none "medium" none) ∧
    (mkDemoSession 100 none "medium" none).endTime < 500 ∧
    get_user_status
        (monitor_cycle 500 (fun _ _ => []) noFailures
          (AgentState.mk [("u3", mkDemoSession 100 none "medium" none)] [] [])) "u3"
      = UserStatus.notMonitored :=
  ⟨rfl, by show (100 : ℚ) < 500; norm_num,
    expired_session_removed_after_cycle 500 (fun _ _ => []) _ "u3" _ rfl
      (by show (100 : ℚ) < 500; norm_num)⟩

/-- C2 counterexample: the boundary case fails.  A session with
`end_time = now` exactly (both 500) survives the scheduler cycle — the code
removes only sessions with `now > end_time` strictly — so `get_user_status`
still reports it, contradicting "absent for all end_time ≤ now". -/
theorem expiry_boundary_counterexample :
    (mkDemoSession 500 none "medium" none).endTime = 500 ∧
    get_user_status
        (monitor_cycle 500 (fun _ _ => []) noFailures
          (AgentState.mk [("u2", mkDemoSession 500 none "medium" none)] [] [])) "u2"
      ≠ UserStatus.notMonitored := by
  refine ⟨rfl, ?_⟩
  have hlive : ¬ (500 : ℚ) > (mkDemoSession 500 none "medium" none).endTime := by
    show ¬ (500 : ℚ) > 500
    norm_num
  have h := monitor_cycle_singleton_suppressed 500 (fun _ _ => []) noFailures "u2"
    (mkDemoSession 500 none "medium" none) [] [] hlive
    (filter_warnings_nil 500 _ "u2")
  rw [h]
  simp [get_user_status, assocFind]

/-! ## C1: invalid coordinates at registration -/

/-- The session record a successful `register_user_session` stores. -/
def freshSession (now : ℚ) (locationName : String) (email : Option String)
    (lat lon durationHours : ℚ) (prefs : Prefs) (w : Weather) : Session :=
  { lat := lat, lon := lon, locationName := locationName, email := email,
    startTime := now, endTime := now + durationHours * 3600, lastCheck := now,
    baselineWeather := some w, lastAlertTime := none,
    alertCooldown := 30, notificationPrefs := prefs, alertCount := 0 }

/-- C1 counterexample: latitude 200 is out of range — `is_valid_coordinates`
rejects it and `reverse_geolocate` returns `None` — yet
`register_user_session` returns `"registered"` (with the coordinate-string
fallback name), adds the session to the active set, and persists a row,
provided only that the baseline weather fetch does not raise.  The invalid
coordinates are silently accepted, not rejected with an input error. -/
theorem invalid_coords_accepted_counterexample :
    is_valid_coordinates 200 0 = false ∧
    reverse_geolocate 200 0 GeoOutcome.fallbackToCoords = none ∧
    (register_user_session 0 GeoOutcome.fallbackToCoords (Except.ok wTemp10)
        "u1" 200 0 6 none none emptyState).1
      = RegResult.registered (fmtCoord 200 ++ ", " ++ fmtCoord 0) (0 + 6 * 3600)
          (defaultRegPrefs none) ∧
    assocFind "u1" (register_user_session 0 GeoOutcome.fallbackToCoords (Except.ok wTemp10)
        "u1" 200 0 6 none none emptyState).2.activeSessions ≠ none ∧
    assocFind "u1" (register_user_session 0 GeoOutcome.fallbackToCoords (Except.ok wTemp10)
        "u1" 200 0 6 none none emptyState).2.dbSessions ≠ none := by
  have hinv : is_valid_coordinates 200 0 = false := by
    unfold is_valid_coordinates
    rw [decide_eq_false (by norm_num : ¬ ((200 : ℚ) ≤ 90))]
    simp
  refine ⟨hinv, ?_, ?_, ?_, ?_⟩
  · unfold reverse_geolocate
    rw [hinv]
    rfl
  · simp [register_user_session, reverse_geolocate, hinv]
  · simp [register_user_session, reverse_geolocate, hinv, _save_session_to_db,
      assocInsert, assocFind, emptyState]
  · simp [register_user_session, reverse_geolocate, hinv, _save_session_to_db,
      assocInsert, assocFind, emptyState]

/-- C1 amended: out-of-range coordinates are NOT rejected at the registry
boundary.  `reverse_geolocate` returns `None` for them, and
`register_user_session` silently substitutes the formatted coordinate pair
as the location name and proceeds: whenever the baseline weather fetch
returns without raising, the registration is accepted (`"registered"`), the
session is added to the in-memory active set, and a row is persisted. -/
theorem invalid_coords_silently_accepted (now : ℚ) (geo : GeoOutcome) (w : Weather)
    (uid : String) (lat lon durationHours : ℚ) (email : Option String)
    (nprefs : Option Prefs) (st : AgentState)
    (hinv : is_valid_coordinates lat lon = false) :
    (register_user_session now geo (Except.ok w) uid lat lon durationHours email nprefs st).1
      = RegResult.registered (fmtCoord lat ++ ", " ++ fmtCoord lon)
          (now + durationHours * 3600) (nprefs.getD (defaultRegPrefs email)) ∧
    (∃ s, assocFind uid (register_user_session now geo (Except.ok w) uid lat lon
          durationHours email nprefs st).2.activeSessions = some s ∧
        s.baselineWeather = some w ∧
        s.locationName = fmtCoord lat ++ ", " ++ fmtCoord lon) ∧
    assocFind uid (register_user_session now geo (Except.ok w) uid lat lon durationHours
        email nprefs st).2.dbSessions ≠ none := by
  refine ⟨?_, ?_, ?_⟩
  · simp [register_user_session, reverse_geolocate, hinv]
  · refine ⟨freshSession now (fmtCoord lat ++ ", " ++ fmtCoord lon) email lat lon
        durationHours (nprefs.getD (defaultRegPrefs email)) w, ?_, rfl, rfl⟩
    simp only [register_user_session, reverse_geolocate, hinv]
    simp [assocFind_insert_self, freshSession]
  · simp only [register_user_session, reverse_geolocate, hinv, _save_session_to_db]
    simp [assocFind_insert_self]

/-- Witness for C1 (amended): longitude 181 is out of range and the
registration is nevertheless accepted with a session stored. -/
theorem invalid_coords_silently_accepted_witness :
    is_valid_coordinates 45 181 = false ∧
    (register_user_session 0 GeoOutcome.fallbackToCoords (Except.ok wTemp10)
        "u9" 45 181 2 none none emptyState).1
      = RegResult.registered (fmtCoord 45 ++ ", " ++ fmtCoord 181) (0 + 2 * 3600)
          ((none : Option Prefs).getD (defaultRegPrefs none)) ∧
    (∃ s, assocFind "u9" (register_user_session 0 GeoOutcome.fallbackToCoords
          (Except.ok wTemp10) "u9" 45 181 2 none none emptyState).2.activeSessions = some s ∧
        s.baselineWeather = some wTemp10 ∧
        s.locationName = fmtCoord 45 ++ ", " ++ fmtCoord 181) ∧
    assocFind "u9" (register_user_session 0 GeoOutcome.fallbackToCoords (Except.ok wTemp10)
        "u9" 45 181 2 none none emptyState).2.dbSessions ≠ none := by
  have hinv : is_valid_coordinates 45 181 = false := by
    unfold is_valid_coordinates
    rw [decide_eq_false (by norm_num : ¬ ((181 : ℚ) ≤ 180))]
    simp
  obtain ⟨h1, h2, h3⟩ := invalid_coords_silently_accepted 0 GeoOutcome.fallbackToCoords
    wTemp10 "u9" 45 181 2 none none emptyState hinv
  exact ⟨hinv, h1, h2, h3⟩

/-! ## C7: the severity filter -/

/-- C7 counterexample: `_filter_warnings` does not drop exactly the
below-threshold warnings — the cooldown drops warnings too.  With
`severity_threshold = low` and a dispatch one minute ago, a high-severity
warning (rank 3, not below rank 1) is dropped all the same. -/
theorem severity_filter_counterexample :
    levels "low" ≤ levels "high" ∧
    _filter_warnings 60
        (AgentState.mk [("u1", mkDemoSession 1000000 (some 0) "low" none)] [] []) "u1"
        [{ type := "severe_alert", message := Msg.severeAlert "Storm" "",
           severity := "high", time := none, source := "official_alert" }]
      = [] := by
  refine ⟨by rw [show levels "low" = 1 from rfl, show levels "high" = 3 from rfl]; norm_num, ?_⟩
  simp [_filter_warnings, assocFind, _should_send_alert, mkDemoSession, levels]

/-- C7 amended: `_filter_warnings` keeps a warning iff its severity rank
(low = 1 < medium = 2 < high = 3) is at least the configured session
threshold rank AND the cooldown check `_should_send_alert` passes; in
particular, a session configured with `severity_threshold = high` never
lets a medium-severity warning through, whatever the poll state. -/
theorem severity_filter_characterization :
    (∀ (now : ℚ) (st : AgentState) (uid : String) (sess : Session)
        (ws : List Warning) (w : Warning),
        assocFind uid st.activeSessions = some sess →
        (w ∈ _filter_warnings now st uid ws ↔
          w ∈ ws ∧
          levels (sess.notificationPrefs.severityThreshold.getD "medium") ≤ levels w.severity ∧
          _should_send_alert now st uid w.type = true)) ∧
    (∀ (now : ℚ) (st : AgentState) (uid : String) (sess : Session)
        (ws : List Warning) (w : Warning),
        assocFind uid st.activeSessions = some sess →
        sess.notificationPrefs.severityThreshold = some "high" →
        w ∈ _filter_warnings now st uid ws → w.severity ≠ "medium") := by
  have hmain : ∀ (now : ℚ) (st : AgentState) (uid : String) (sess : Session)
      (ws : List Warning) (w : Warning),
      assocFind uid st.activeSessions = some sess →
      (w ∈ _filter_warnings now st uid ws ↔
        w ∈ ws ∧
        levels (sess.notificationPrefs.severityThreshold.getD "medium") ≤ levels w.severity ∧
        _should_send_alert now st uid w.type = true) := by
    intro now st uid sess ws w hfind
    unfold _filter_warnings
    rw [hfind]
    simp [List.mem_filter, and_assoc]
  refine ⟨hmain, ?_⟩
  intro now st uid sess ws w hfind hthr hw hmed
  have h := (hmain now st uid sess ws w hfind).mp hw
  rw [hthr, hmed] at h
  have h32 : levels ((some "high").getD "medium") ≤ levels "medium" := h.2.1
  simp [levels] at h32

/-- Witness for C7 (amended): the characterization instantiated on a
concrete medium-threshold session with the scenario warning. -/
theorem severity_filter_characterization_witness :
    wBreach ∈ _filter_warnings 0
        (AgentState.mk [("u1", mkDemoSession 1000 none "medium" none)] [] []) "u1" [wBreach] ↔
      wBreach ∈ [wBreach] ∧
      levels ((mkDemoSession 1000 none "medium" none).notificationPrefs.severityThreshold.getD
          "medium") ≤ levels wBreach.severity ∧
      _should_send_alert 0
          (AgentState.mk [("u1", mkDemoSession 1000 none "medium" none)] [] [])
          "u1" wBreach.type = true :=
  severity_filter_characterization.1 0
    (AgentState.mk [("u1", mkDemoSession 1000 none "medium" none)] [] [])
    "u1" (mkDemoSession 1000 none "medium" none) [wBreach] wBreach rfl

/-! ## C8: deterministic ordering of the detector output -/

/-- The baseline-delta segment is `[]` or a single `temperature_change`
warning. -/
theorem baselineDeltaWarnings_shape (th : Thresholds) (sess : Session) (current : Weather) :
    baselineDeltaWarnings th sess current = [] ∨
    ∃ bT cT, baselineDeltaWarnings th sess current
      = [{ type := "temperature_change",
           message := Msg.temperatureChange |cT - bT| bT cT,
           severity := "medium", time := none, source := "threshold" }] := by
  unfold baselineDeltaWarnings
  rcases sess.baselineWeather with _ | baseline
  · exact Or.inl rfl
  dsimp only
  rcases baseline.main with _ | bm
  · exact Or.inl rfl
  rcases current.main with _ | cm
  · exact Or.inl rfl
  dsimp only
  rcases bm.temp with _ | bT
  · exact Or.inl rfl
  rcases cm.temp with _ | cT
  · exact Or.inl rfl
  dsimp only
  by_cases hd : |cT - bT| ≥ th.tempChange
  · exact Or.inr ⟨bT, cT, by simp [hd]⟩
  · exact Or.inl (by simp [hd])

/-- C8: over already-fetched data, the detector output is deterministically
ordered: first the baseline-vs-current temperature-delta segment (at most
one warning, always a medium `temperature_change`), then the
forecast-derived warnings obtained from the first three forecast entries in
list (chronological) order, and last one high-severity `severe_alert`
warning per official-alert entry. -/
theorem detector_output_ordering (th : Thresholds) (now : ℚ) (sess : Session)
    (current : Weather) (forecastList : List ForecastItem) (alerts : List AlertEntry) :
    check_weather_changes th now sess current forecastList alerts
      = baselineDeltaWarnings th sess current
        ++ ((forecastList.take 3).map
              (upcomingItemWarnings th now (current.main.bind WMain.temp) current.cond)).flatten
        ++ alerts.map mkSevereAlert ∧
    (baselineDeltaWarnings th sess current).length ≤ 1 ∧
    (∀ w ∈ baselineDeltaWarnings th sess current,
        w.type = "temperature_change" ∧ w.severity = "medium") ∧
    (∀ a : AlertEntry,
        (mkSevereAlert a).type = "severe_alert" ∧ (mkSevereAlert a).severity = "high") := by
  refine ⟨?_, ?_, ?_, fun a => ⟨rfl, rfl⟩⟩
  · unfold check_weather_changes _check_threshold_alerts _check_upcoming_changes
    by_cases hf : forecastList = [] <;> by_cases ha : alerts = [] <;> simp [hf, ha]
  · rcases baselineDeltaWarnings_shape th sess current with h | ⟨bT, cT, h⟩ <;> simp [h]
  · intro w hw
    rcases baselineDeltaWarnings_shape th sess current with h | ⟨bT, cT, h⟩ <;>
      rw [h] at hw <;> simp at hw
    simp [hw]

/-- Witness for C8: the decomposition and segment facts instantiated on a
concrete input with a non-empty baseline segment and one official alert. -/
theorem detector_output_ordering_witness :
    check_weather_changes defaultThresholds 0 sessA wTemp16 []
        [{ event := some "Storm", desc := some "alert text" }]
      = baselineDeltaWarnings defaultThresholds sessA wTemp16
        ++ ((([] : List ForecastItem).take 3).map
              (upcomingItemWarnings defaultThresholds 0 (wTemp16.main.bind WMain.temp)
                wTemp16.cond)).flatten
        ++ [{ event := some "Storm", desc := some "alert text" : AlertEntry }].map mkSevereAlert ∧
    wBreach ∈ baselineDeltaWarnings defaultThresholds sessA wTemp16 ∧
    wBreach.type = "temperature_change" ∧ wBreach.severity = "medium" ∧
    (mkSevereAlert { event := some "Storm", desc := some "alert text" }).type = "severe_alert" ∧
    (mkSevereAlert { event := some "Storm", desc := some "alert text" }).severity = "high" := by
  have hbase : baselineDeltaWarnings defaultThresholds sessA wTemp16 = [wBreach] := by
    have h := breachCheck_eval "u1" sessA rfl
    unfold breachCheck check_weather_changes _check_threshold_alerts at h
    simpa using h
  have hmem : wBreach ∈ baselineDeltaWarnings defaultThresholds sessA wTemp16 := by
    rw [hbase]
    simp
  have h := detector_output_ordering defaultThresholds 0 sessA wTemp16 []
    [{ event := some "Storm", desc := some "alert text" }]
  obtain ⟨htype, hsev⟩ := h.2.2.1 wBreach hmem
  obtain ⟨hstype, hssev⟩ := h.2.2.2 { event := some "Storm", desc := some "alert text" }
  exact ⟨h.1, hmem, htype, hsev, hstype, hssev⟩

end MisterDonkey
